import Mathlib

/-!
Shallow embedding of the WebGPU rotating-triangle demo (src/main.js).

Numeric values computed by the JavaScript program are modelled as real
numbers.  A 4x4 matrix is stored, as in the source, as a flat list of 16
floats in column-major order.  The per-frame callback, the canvas click
handler and the initialization path are embedded as explicit state-passing
functions; GPU commands issued by a frame are recorded as a command list.
-/

namespace Triangle

/-- The fixed vertex data of src/main.js lines 36-41: three vertices of
(x, y, r, g, b), 5 floats each, 15 floats total. -/
def vertexData : List ℝ :=
  [0, 0.6667, 1, 0, 0,
   -0.5, -0.3333, 0, 1, 0,
   0.5, -0.3333, 0, 0, 1]

/-- Bytes per element of a Float32Array. -/
def bytesPerFloat : ℕ := 4

/-- `vertexData.byteLength`, the size passed to `createBuffer` for the
vertex buffer at src/main.js line 89. -/
def vertexDataByteLength : ℕ := vertexData.length * bytesPerFloat

/-- `createTransformationMatrix` of src/main.js lines 43-53: a column-major
4x4 matrix as a flat list of 16 floats. -/
noncomputable def createTransformationMatrix (rotation tx ty : ℝ) : List ℝ :=
  let cosTheta := Real.cos rotation
  let sinTheta := Real.sin rotation
  [cosTheta, -sinTheta, 0, 0,
   sinTheta, cosTheta, 0, 0,
   0, 0, 1, 0,
   tx, ty, 0, 1]

/-- The column-major 4x4 identity matrix as a flat list of 16 floats. -/
def identityMatrix : List ℝ :=
  [1, 0, 0, 0,
   0, 1, 0, 0,
   0, 0, 1, 0,
   0, 0, 0, 1]

/-- Reads the upper-left 2x2 block of a column-major flat 4x4 matrix:
entry (row i, column j) lives at flat index j*4 + i. -/
noncomputable def upperLeft2x2 (m : List ℝ) : Matrix (Fin 2) (Fin 2) ℝ :=
  Matrix.of fun i j => m.getD (j.val * 4 + i.val) 0

/-- Mutable state of the rendering loop: `rotationAngle` and `isRotating`
(src/main.js lines 159-160), together with the contents of the matrix
region of the uniform buffer (first 16 floats, zero-initialized as WebGPU
buffers are) and the contents of the vertex buffer. -/
structure AppState where
  rotationAngle : ℝ
  isRotating : Bool
  uniformBuffer : List ℝ
  vertexBuffer : List ℝ

/-- The state right after initialization: angle 0, rotation active, uniform
buffer zeroed, vertex buffer holding `vertexData` (written once via
`getMappedRange` at creation, src/main.js lines 88-95). -/
def initialState : AppState :=
  { rotationAngle := 0
    isRotating := true
    uniformBuffer := List.replicate 16 0
    vertexBuffer := vertexData }

/-- The canvas click handler (src/main.js lines 163-165): toggles
`isRotating` and touches nothing else. -/
def canvasClick (s : AppState) : AppState :=
  { s with isRotating := !s.isRotating }

/-- GPU commands recorded while encoding and submitting one frame
(src/main.js lines 186-197). -/
inductive RenderCommand where
  | beginRenderPass (clearR clearG clearB clearA : ℝ)
  | setPipeline
  | setBindGroup (index : ℕ)
  | setVertexBuffer (slot : ℕ)
  | draw (vertexCount instanceCount : ℕ)
  | endPass
  | submit

/-- Whether a command is a draw call. -/
def RenderCommand.isDraw : RenderCommand → Bool
  | .draw _ _ => true
  | _ => false

/-- Result of one invocation of `frame` (src/main.js lines 168-201): the
updated state, the matrices passed to `queue.writeBuffer` during the frame,
and the render commands encoded and submitted. -/
structure FrameResult where
  state : AppState
  uniformWrites : List (List ℝ)
  commands : List RenderCommand

/-- The render commands every frame encodes, from the render pass
descriptor (clear color r=0, g=0.2, b=0.4, a=1, src/main.js lines 149-156)
through `passEncoder.draw(3)` (vertex count 3, default instance count 1)
and queue submission. -/
noncomputable def frameCommands : List RenderCommand :=
  [RenderCommand.beginRenderPass 0 0.2 0.4 1,
   RenderCommand.setPipeline,
   RenderCommand.setBindGroup 0,
   RenderCommand.setVertexBuffer 0,
   RenderCommand.draw 3 1,
   RenderCommand.endPass,
   RenderCommand.submit]

/-- One invocation of the `frame` callback (src/main.js lines 168-201).
If `isRotating`, the angle is incremented by 0.01 and the recomputed
transform (translation fixed at the origin) is written to the uniform
buffer; in either case one render pass with one draw call is encoded and
submitted. -/
noncomputable def frame (s : AppState) : FrameResult :=
  if s.isRotating then
    let angle := s.rotationAngle + 0.01
    let m := createTransformationMatrix angle 0 0
    { state := { s with rotationAngle := angle, uniformBuffer := m }
      uniformWrites := [m]
      commands := frameCommands }
  else
    { state := s, uniformWrites := [], commands := frameCommands }

/-- `n` consecutive frame invocations. -/
noncomputable def frames : ℕ → AppState → AppState
  | 0, s => s
  | n + 1, s => frames n (frame s).state

/-- `n` consecutive click-handler invocations. -/
def clicks : ℕ → AppState → AppState
  | 0, s => s
  | n + 1, s => clicks n (canvasClick s)

/-- External events driving the state: display-refresh frame callbacks and
canvas clicks, the only two mutators of the state. -/
inductive Event where
  | frameEv
  | clickEv
  deriving DecidableEq

/-- The state transition of one event. -/
noncomputable def stepEv (s : AppState) : Event → AppState
  | .frameEv => (frame s).state
  | .clickEv => canvasClick s

/-- Runs a sequence of events from a state. -/
noncomputable def run (s : AppState) : List Event → AppState
  | [] => s
  | e :: es => run (stepEv s e) es

/-- All matrices written to the uniform buffer over a sequence of events. -/
noncomputable def writes (s : AppState) : List Event → List (List ℝ)
  | [] => []
  | .frameEv :: es => (frame s).uniformWrites ++ writes (frame s).state es
  | .clickEv :: es => writes (canvasClick s) es

/-- Environment flags for the initialization path: whether `navigator.gpu`
exists, whether `requestAdapter` yields an adapter, and whether
`requestDevice` yields a device. -/
structure Env where
  gpuAvailable : Bool
  adapterAvailable : Bool
  deviceAvailable : Bool

/-- Observable outcome of the top-level entry (src/main.js lines 208-212)
and `initWebGPU` (lines 55-205): console.error messages emitted, whether a
device was requested, whether buffers/pipeline were created, and whether
the frame loop was entered. -/
structure InitOutcome where
  errors : List String
  deviceRequested : Bool
  resourcesCreated : Bool
  frameLoopEntered : Bool

/-- The top-level flow: the `navigator.gpu` guard, then `initWebGPU` with
its two early-return checks (src/main.js lines 60-72, 208-212). -/
def runMain (env : Env) : InitOutcome :=
  if env.gpuAvailable then
    if env.adapterAvailable then
      if env.deviceAvailable then
        { errors := [], deviceRequested := true,
          resourcesCreated := true, frameLoopEntered := true }
      else
        { errors := ["Failed to create WebGPU device."],
          deviceRequested := true, resourcesCreated := false,
          frameLoopEntered := false }
    else
      { errors := ["WebGPU adapter not available. Your hardware or browser may not support WebGPU."],
        deviceRequested := false, resourcesCreated := false,
        frameLoopEntered := false }
  else
    { errors := ["WebGPU is not supported on this browser."],
      deviceRequested := false, resourcesCreated := false,
      frameLoopEntered := false }

/-- Resources created by a successful `initWebGPU` run: exactly one render
pipeline (src/main.js line 98), one vertex buffer of `vertexData.byteLength`
bytes (lines 88-92) and one uniform buffer of 256 bytes (lines 130-133). -/
structure InitResources where
  pipelineCount : ℕ
  vertexBufferCount : ℕ
  uniformBufferCount : ℕ
  vertexBufferBytes : ℕ
  uniformBufferBytes : ℕ

/-- The resources `initWebGPU` creates on its success path. -/
def initResources : InitResources :=
  { pipelineCount := 1
    vertexBufferCount := 1
    uniformBufferCount := 1
    vertexBufferBytes := vertexDataByteLength
    uniformBufferBytes := 256 }

/-- Helper: the frame callback never flips the rotation flag. -/
lemma frame_preserves_isRotating (s : AppState) :
    (frame s).state.isRotating = s.isRotating := by
  by_cases h : s.isRotating <;> simp [frame, h]

/-- Helper: the frame callback never touches the vertex buffer. -/
lemma frame_preserves_vertexBuffer (s : AppState) :
    (frame s).state.vertexBuffer = s.vertexBuffer := by
  by_cases h : s.isRotating <;> simp [frame, h]

/-- Helper: repeated clicks never touch the rotation angle. -/
lemma clicks_preserve_angle (n : ℕ) (s : AppState) :
    (clicks n s).rotationAngle = s.rotationAngle := by
  induction n generalizing s with
  | zero => rfl
  | succ n ih => rw [clicks, ih]; rfl

/-- C1: for every angle and translation, `createTransformationMatrix`
returns exactly the column-major matrix with column0 = (cos θ, -sin θ, 0, 0),
column1 = (sin θ, cos θ, 0, 0), column2 = (0, 0, 1, 0) and
column3 = (tx, ty, 0, 1).  The function is pure, so the result depends on
nothing beyond its three arguments. -/
theorem createTransformationMatrix_columns (θ tx ty : ℝ) :
    createTransformationMatrix θ tx ty =
      [Real.cos θ, -Real.sin θ, 0, 0,
       Real.sin θ, Real.cos θ, 0, 0,
       0, 0, 1, 0,
       tx, ty, 0, 1] := rfl

/-- C4: the click handler is an involution on `isRotating`: an even number
of clicks restores the flag, an odd number negates it; clicks change nothing
else of the rotation state, and the frame callback never changes the flag,
so the click toggle is the only Rotating/Paused transition. -/
theorem click_toggle_parity (s : AppState) (n : ℕ) :
    ((clicks n s).isRotating =
      if n % 2 = 0 then s.isRotating else !s.isRotating) ∧
    (clicks n s).rotationAngle = s.rotationAngle ∧
    (frame s).state.isRotating = s.isRotating := by
  refine ⟨?_, clicks_preserve_angle n s, frame_preserves_isRotating s⟩
  induction n generalizing s with
  | zero => simp [clicks]
  | succ n ih =>
      rw [clicks, ih]
      by_cases h : n % 2 = 0
      · have h1 : (n + 1) % 2 ≠ 0 := by omega
        simp [h, h1, canvasClick]
      · have h1 : (n + 1) % 2 = 0 := by omega
        simp [h, h1, canvasClick]

/-- C5: every frame, rotating or paused, encodes one render pass that
clears to (0, 0.2, 0.4, 1), binds the pipeline, the bind group and the
vertex buffer, issues exactly one draw call with vertex count 3 and
instance count 1, ends the pass and submits. -/
theorem frame_render_pass (s : AppState) :
    ((frame s).commands =
      [RenderCommand.beginRenderPass 0 0.2 0.4 1,
       RenderCommand.setPipeline,
       RenderCommand.setBindGroup 0,
       RenderCommand.setVertexBuffer 0,
       RenderCommand.draw 3 1,
       RenderCommand.endPass,
       RenderCommand.submit]) ∧
    (frame s).commands.countP (fun c => c.isDraw) = 1 := by
  have hc : (frame s).commands = frameCommands := by
    by_cases h : s.isRotating <;> simp [frame, h]
  rw [hc]
  exact ⟨rfl, by simp [frameCommands, RenderCommand.isDraw]⟩

/-- C6: at zero translation, the upper-left 2x2 block of the column-major
matrix holds cos θ, -sin θ at flat indices 0, 1 (its first stored column)
and sin θ, cos θ at flat indices 4, 5 (its second stored column); this
block is orthonormal and has determinant 1. -/
theorem rotation_block_orthonormal (θ : ℝ) :
    upperLeft2x2 (createTransformationMatrix θ 0 0) =
      Matrix.of ![![Real.cos θ, Real.sin θ], ![-Real.sin θ, Real.cos θ]] ∧
    Matrix.transpose (upperLeft2x2 (createTransformationMatrix θ 0 0)) *
      upperLeft2x2 (createTransformationMatrix θ 0 0) = 1 ∧
    (upperLeft2x2 (createTransformationMatrix θ 0 0)).det = 1 := by
  have hB : upperLeft2x2 (createTransformationMatrix θ 0 0) =
      !![Real.cos θ, Real.sin θ; -Real.sin θ, Real.cos θ] := by
    ext i j
    fin_cases i <;> fin_cases j <;>
      simp [upperLeft2x2, createTransformationMatrix]
  have hT : Matrix.transpose !![Real.cos θ, Real.sin θ; -Real.sin θ, Real.cos θ] =
      !![Real.cos θ, -Real.sin θ; Real.sin θ, Real.cos θ] := by
    ext i j
    fin_cases i <;> fin_cases j <;> simp
  have hpy : Real.cos θ * Real.cos θ + Real.sin θ * Real.sin θ = 1 := by
    have := Real.sin_sq_add_cos_sq θ
    nlinarith [this]
  refine ⟨hB, ?_, ?_⟩
  · rw [hB, hT, Matrix.mul_fin_two, Matrix.one_fin_two]
    ext i j
    fin_cases i <;> fin_cases j <;> simp <;> nlinarith [hpy]
  · rw [hB, Matrix.det_fin_two_of]
    nlinarith [hpy]

/-- C7: initialization builds exactly one pipeline, one vertex buffer whose
byte size is exactly the 3-vertex times 5-float dataset, and one uniform
buffer of 256 bytes (at least the 64 matrix bytes); the vertex buffer holds
`vertexData` from creation and no later operation rewrites it, and no
operation resizes either buffer. -/
theorem init_resources_spec :
    initResources.pipelineCount = 1 ∧
    initResources.vertexBufferCount = 1 ∧
    initResources.uniformBufferCount = 1 ∧
    initResources.vertexBufferBytes = 3 * 5 * bytesPerFloat ∧
    64 ≤ initResources.uniformBufferBytes ∧
    initResources.uniformBufferBytes = 256 ∧
    initialState.vertexBuffer = vertexData ∧
    (∀ s : AppState, (frame s).state.vertexBuffer = s.vertexBuffer) ∧
    (∀ s : AppState, (canvasClick s).vertexBuffer = s.vertexBuffer) := by
  refine ⟨rfl, rfl, rfl, rfl, by norm_num [initResources], rfl, rfl,
    frame_preserves_vertexBuffer, fun s => rfl⟩

/-- C8: when the graphics API is absent or no adapter is available, exactly
one error is reported, no device is requested, no buffers or pipeline are
created, and the frame loop is never entered. -/
theorem init_failure_aborts (env : Env)
    (h : env.gpuAvailable = false ∨ env.adapterAvailable = false) :
    (runMain env).errors.length = 1 ∧
    (runMain env).deviceRequested = false ∧
    (runMain env).resourcesCreated = false ∧
    (runMain env).frameLoopEntered = false := by
  rcases h with h | h
  · simp [runMain, h]
  · by_cases hg : env.gpuAvailable <;> simp [runMain, h, hg]

/-- Witness for C8 at the concrete environment with a GPU but no adapter. -/
theorem init_failure_aborts_witness :
    ((Env.mk true false true).gpuAvailable = false ∨
      (Env.mk true false true).adapterAvailable = false) ∧
    ((runMain (Env.mk true false true)).errors.length = 1 ∧
     (runMain (Env.mk true false true)).deviceRequested = false ∧
     (runMain (Env.mk true false true)).resourcesCreated = false ∧
     (runMain (Env.mk true false true)).frameLoopEntered = false) :=
  ⟨Or.inr rfl, init_failure_aborts (Env.mk true false true) (Or.inr rfl)⟩

/-- Helper: one rotating frame adds 0.01 to the angle and keeps rotating. -/
lemma frame_rotating_state (s : AppState) (h : s.isRotating = true) :
    (frame s).state.rotationAngle = s.rotationAngle + 0.01 ∧
    (frame s).state.isRotating = true := by
  simp [frame, h]

/-- Helper: while rotating, `n` frames add `0.01 * n` to the angle. -/
lemma frames_rotating_aux (n : ℕ) (s : AppState) (h : s.isRotating = true) :
    (frames n s).rotationAngle = s.rotationAngle + 0.01 * n ∧
    (frames n s).isRotating = true := by
  induction n generalizing s with
  | zero => exact ⟨by simp [frames], by simpa [frames] using h⟩
  | succ n ih =>
      rw [frames]
      obtain ⟨h1, h2⟩ := frame_rotating_state s h
      obtain ⟨ih1, ih2⟩ := ih (frame s).state h2
      refine ⟨?_, ih2⟩
      rw [ih1, h1]
      push_cast
      ring

/-- Helper: a paused frame leaves the whole state unchanged. -/
lemma frame_paused_state (s : AppState) (h : s.isRotating = false) :
    (frame s).state = s := by
  simp [frame, h]

/-- Helper: while paused, any number of frames leaves the state unchanged. -/
lemma frames_paused (n : ℕ) (s : AppState) (h : s.isRotating = false) :
    frames n s = s := by
  induction n with
  | zero => rfl
  | succ n ih => rw [frames, frame_paused_state s h, ih]

/-- Helper: while paused, a run of frame events leaves the state unchanged. -/
lemma run_paused_frames (n : ℕ) (s : AppState) (h : s.isRotating = false) :
    run s (List.replicate n Event.frameEv) = s := by
  induction n with
  | zero => rfl
  | succ n ih =>
      rw [List.replicate_succ, run, stepEv, frame_paused_state s h, ih]

/-- Helper: while paused, a run of frame events writes nothing. -/
lemma writes_paused_frames (n : ℕ) (s : AppState) (h : s.isRotating = false) :
    writes s (List.replicate n Event.frameEv) = [] := by
  induction n with
  | zero => rfl
  | succ n ih =>
      rw [List.replicate_succ, writes, frame_paused_state s h, ih]
      simp [frame, h]

/-- C2: while rotating, each frame adds exactly 0.01 to the angle, so after
`n` frames the angle is the initial angle plus `0.01 * n`; no wrap at 2*pi
is applied and the angle exceeds any bound for large enough `n`. -/
theorem rotating_angle_linear (s : AppState) (h : s.isRotating = true)
    (n : ℕ) :
    (frames n s).rotationAngle = s.rotationAngle + 0.01 * n ∧
    ∀ B : ℝ, ∃ N : ℕ, B < (frames N s).rotationAngle := by
  refine ⟨(frames_rotating_aux n s h).1, fun B => ?_⟩
  obtain ⟨N, hN⟩ := exists_nat_gt ((B - s.rotationAngle) / 0.01)
  refine ⟨N, ?_⟩
  rw [(frames_rotating_aux N s h).1]
  have h01 : (0 : ℝ) < 0.01 := by norm_num
  rw [div_lt_iff₀ h01] at hN
  linarith

/-- Witness for C2 at the initial state and 2 frames. -/
theorem rotating_angle_linear_witness :
    initialState.isRotating = true ∧
    ((frames 2 initialState).rotationAngle =
        initialState.rotationAngle + 0.01 * (2 : ℕ) ∧
      ∀ B : ℝ, ∃ N : ℕ, B < (frames N initialState).rotationAngle) :=
  ⟨rfl, rotating_angle_linear initialState rfl 2⟩

/-- C3: while paused, any number of frame invocations changes nothing: the
state (angle and uniform-buffer contents included) is exactly as before and
no uniform-buffer write is issued. -/
theorem paused_frames_noop (s : AppState) (h : s.isRotating = false)
    (n : ℕ) :
    frames n s = s ∧
    (frames n s).uniformBuffer = s.uniformBuffer ∧
    writes s (List.replicate n Event.frameEv) = [] :=
  ⟨frames_paused n s h, by rw [frames_paused n s h],
    writes_paused_frames n s h⟩

/-- Witness for C3 at a paused state and 3 frames. -/
theorem paused_frames_noop_witness :
    (canvasClick initialState).isRotating = false ∧
    (frames 3 (canvasClick initialState) = canvasClick initialState ∧
      (frames 3 (canvasClick initialState)).uniformBuffer =
        (canvasClick initialState).uniformBuffer ∧
      writes (canvasClick initialState)
        (List.replicate 3 Event.frameEv) = []) :=
  ⟨rfl, paused_frames_noop (canvasClick initialState) rfl 3⟩

/-- C10: a click never changes the angle or the uniform buffer, so after a
pause click, `n` paused frames and a resume click the angle is exactly the
angle held when rotation was paused, and the first rotating frame after
resuming continues from it (incrementing by 0.01). -/
theorem pause_resume_preserves_angle (s : AppState)
    (h : s.isRotating = true) (n : ℕ) :
    (canvasClick s).rotationAngle = s.rotationAngle ∧
    (canvasClick s).uniformBuffer = s.uniformBuffer ∧
    (run (canvasClick s) (List.replicate n Event.frameEv)).rotationAngle
      = s.rotationAngle ∧
    (frame (canvasClick (run (canvasClick s)
        (List.replicate n Event.frameEv)))).state.rotationAngle
      = s.rotationAngle + 0.01 ∧
    (frame (canvasClick (run (canvasClick s)
        (List.replicate n Event.frameEv)))).state.isRotating = true := by
  have hp : (canvasClick s).isRotating = false := by
    simp [canvasClick, h]
  have hrun : run (canvasClick s) (List.replicate n Event.frameEv) =
      canvasClick s := run_paused_frames n (canvasClick s) hp
  have hres : (canvasClick (canvasClick s)).isRotating = true := by
    simp [canvasClick, h]
  obtain ⟨ha, hb⟩ := frame_rotating_state (canvasClick (canvasClick s)) hres
  refine ⟨rfl, rfl, by rw [hrun]; rfl, ?_, ?_⟩
  · rw [hrun, ha]; rfl
  · rw [hrun, hb]

/-- Witness for C10 at the initial state and a 2-frame pause. -/
theorem pause_resume_preserves_angle_witness :
    initialState.isRotating = true ∧
    ((canvasClick initialState).rotationAngle =
        initialState.rotationAngle ∧
      (canvasClick initialState).uniformBuffer =
        initialState.uniformBuffer ∧
      (run (canvasClick initialState)
          (List.replicate 2 Event.frameEv)).rotationAngle
        = initialState.rotationAngle ∧
      (frame (canvasClick (run (canvasClick initialState)
          (List.replicate 2 Event.frameEv)))).state.rotationAngle
        = initialState.rotationAngle + 0.01 ∧
      (frame (canvasClick (run (canvasClick initialState)
          (List.replicate 2 Event.frameEv)))).state.isRotating = true) :=
  ⟨rfl, pause_resume_preserves_angle initialState rfl 2⟩

/-- Helper: from a state whose angle is a natural multiple of 0.01, every
matrix ever written to the uniform buffer is the zero-translation transform
at a positive natural multiple of 0.01. -/
lemma writes_form (es : List Event) (s : AppState) (k : ℕ)
    (hk : s.rotationAngle = 0.01 * k) :
    ∀ m ∈ writes s es,
      ∃ j : ℕ, 1 ≤ j ∧ m = createTransformationMatrix (0.01 * j) 0 0 := by
  induction es generalizing s k with
  | nil => simp [writes]
  | cons e es ih =>
      cases e with
      | clickEv =>
          intro m hm
          rw [writes] at hm
          exact ih (canvasClick s) k hk m hm
      | frameEv =>
          intro m hm
          rw [writes] at hm
          by_cases h : s.isRotating
          · have hw : (frame s).uniformWrites =
                [createTransformationMatrix (0.01 * (k + 1 : ℕ)) 0 0] := by
              simp [frame, h, hk]
              norm_num
              ring_nf
            have hst : (frame s).state.rotationAngle = 0.01 * (k + 1 : ℕ) := by
              have := (frame_rotating_state s h).1
              rw [this, hk]
              push_cast
              ring
            rw [hw] at hm
            rcases List.mem_append.1 hm with hm | hm
            · rcases List.mem_singleton.1 hm with rfl
              exact ⟨k + 1, Nat.le_add_left 1 k, rfl⟩
            · exact ih (frame s).state (k + 1) hst m hm
          · have hb : s.isRotating = false := by
              simpa using h
            have hw : (frame s).uniformWrites = [] := by
              simp [frame, hb]
            rw [hw, frame_paused_state s hb] at hm
            simp at hm
            exact ih s k hk m hm

/-- Helper: for a positive natural `j`, the transform at angle `0.01 * j`
is not the identity matrix, because `0.01 * j` is never an integer multiple
of 2*pi (pi is irrational). -/
lemma transform_pos_step_ne_identity (j : ℕ) (hj : 1 ≤ j) :
    createTransformationMatrix (0.01 * j) 0 0 ≠ identityMatrix := by
  intro heq
  have hcos : Real.cos (0.01 * j) = 1 := by
    have hhead := congrArg (fun l => l.headD 0) heq
    simpa [createTransformationMatrix, identityMatrix] using hhead
  obtain ⟨n, hn⟩ := (Real.cos_eq_one_iff _).1 hcos
  have hjpos : (0 : ℝ) < 0.01 * j := by
    have : (1 : ℝ) ≤ (j : ℝ) := by exact_mod_cast hj
    nlinarith
  have hnpos : (0 : ℝ) < (n : ℝ) := by
    by_contra hle
    push_neg at hle
    have hpi := Real.pi_pos
    nlinarith [hn]
  have hn0 : (n : ℝ) ≠ 0 := ne_of_gt hnpos
  have hq : (((j : ℚ) / (200 * (n : ℚ)) : ℚ) : ℝ) = Real.pi := by
    push_cast
    rw [div_eq_iff (mul_ne_zero (by norm_num) hn0)]
    norm_num at hn ⊢
    linarith [hn]
  exact irrational_pi ⟨(j : ℚ) / (200 * (n : ℚ)), hq⟩

/-- C9: the angle increment precedes the uniform-buffer write and the
initial angle is 0, so the first matrix ever uploaded is the transform at
angle 0.01, and in no execution (any interleaving of frames and clicks
after the initial frame call) is the identity transform ever written. -/
theorem first_write_angle_and_no_identity (es : List Event) :
    (writes initialState (Event.frameEv :: es)).head? =
      some (createTransformationMatrix 0.01 0 0) ∧
    identityMatrix ∉ writes initialState (Event.frameEv :: es) := by
  constructor
  · have h : initialState.isRotating = true := rfl
    rw [writes]
    have hw : (frame initialState).uniformWrites =
        [createTransformationMatrix 0.01 0 0] := by
      simp [frame, initialState]
    rw [hw]
    rfl
  · intro hmem
    obtain ⟨jj, hj1, hj2⟩ := writes_form (Event.frameEv :: es) initialState 0
      (by simp [initialState]) identityMatrix hmem
    exact transform_pos_step_ne_identity jj hj1 hj2.symm

end Triangle
